import Mathlib

/-!
Verification development for the `rattus` ortholog-resolution tool.

The development shallowly embeds the two core modules:

* `src/api.py` — the `EnsemblAPI` class: `fetch_data` (retry loop with
  exponential backoff), `handle_error` (classification + backoff sleep),
  `get_human_ortholog`, and `process_response`.
* `src/file_processing.py` — `validate_input_file` and `process_csv`
  (batch pipeline with the nested `process_gene` worker).

JSON values are modelled by the inductive `JValue`; Python dictionaries of
JSON values by association lists (`PyDict`); fallible Python evaluation
(KeyError, IndexError, AttributeError, NameError, …) by `Except PyErr`.
Network attempts are abstracted by an oracle `Nat → AttemptResult` giving
the outcome each HTTP attempt would have, and the `random.uniform(0.8, 1.2)`
jitter draw by an explicit function `Nat → ℚ`; `time.sleep` calls are
recorded as a list of slept durations.  The `ThreadPoolExecutor` /
`as_completed` loop of `process_csv` is serialised in input order: every
property proved below (row counts, tallies, per-gene row blocks) is
insensitive to the completion order, and the coordinating loop drains one
future at a time.
-/

/-- A JSON value, as produced by `response.json()`. -/
inductive JValue where
  | null
  | bool (b : Bool)
  | num (q : ℚ)
  | str (s : String)
  | arr (xs : List JValue)
  | obj (kvs : List (String × JValue))

/-- A Python dictionary with string keys and JSON-ish values (an ortholog
record, a CSV output row, ...).  Keys of dictionaries built by the program
are pairwise distinct, so first-match lookup agrees with Python lookup. -/
abbrev PyDict := List (String × JValue)

/-- The Python exceptions the embedded code can raise. -/
inductive PyErr where
  | keyError (k : String)
  | indexError
  | attrError
  | typeError
  | nameError (n : String)
  | valueError (msg : String)
deriving DecidableEq

/-- Python truthiness of a JSON value (`if data:`): `None`, `False`, `0`,
`""`, `[]` and `{}` are falsy, everything else truthy. -/
def JValue.truthy : JValue → Bool
  | .null => false
  | .bool b => b
  | .num q => q != 0
  | .str s => s != ""
  | .arr xs => !xs.isEmpty
  | .obj kvs => !kvs.isEmpty

/-- Python subscript `v[k]` with a string key.  A missing key raises
KeyError; subscripting a non-dict raises TypeError — both abort evaluation,
and the embedding reports the key either way. -/
def JValue.subKey : JValue → String → Except PyErr JValue
  | .obj kvs, k =>
    match kvs.lookup k with
    | some v => .ok v
    | none => .error (.keyError k)
  | _, k => .error (.keyError k)

/-- Python subscript `v[i]` with an integer index.  An out-of-range index
raises IndexError; subscripting a non-sequence raises TypeError — both
abort evaluation. -/
def JValue.subIdx : JValue → Nat → Except PyErr JValue
  | .arr xs, i =>
    match xs.get? i with
    | some v => .ok v
    | none => .error .indexError
  | _, _ => .error .indexError

/-- Python `for x in v` needs a list of elements; the response shapes the
program consumes always iterate JSON arrays, and iterating anything else
leads to a raise once the loop body subscripts the elements. -/
def JValue.iterate : JValue → Except PyErr (List JValue)
  | .arr xs => .ok xs
  | _ => .error .typeError

/-- Dictionary lookup `d[k]` on a `PyDict`, raising KeyError when absent. -/
def PyDict.find (d : PyDict) (k : String) : Except PyErr JValue :=
  match d.lookup k with
  | some v => .ok v
  | none => .error (.keyError k)

/-! ## `src/api.py` -/

/-- The outcome one HTTP attempt would have: either `raise_for_status`
passes and `response.json()` yields a body, or the attempt raises (HTTP
error, transport failure, …).  The error classification in
`handle_error` (lines 59–67) affects only the log severity, never the
control flow, so the failure case carries no payload. -/
inductive AttemptResult where
  | success (body : JValue)
  | failure

/-- The retry loop of `EnsemblAPI.fetch_data` (api.py lines 34–42), one
iteration per remaining attempt; `attempt` is the 0-based index of the
current iteration.  Returns the body of the first successful attempt (or
`none` when every attempt fails) together with the list of `time.sleep`
durations performed by `handle_error`, in order.  `handle_error` (line 71)
sleeps `delay * 2 ^ attempt * jitter attempt` unconditionally after every
failed attempt, including the final one, after which the loop returns
`None`. -/
def fetchFrom (oracle : Nat → AttemptResult) (delay : ℚ) (jitter : Nat → ℚ)
    (attempt : Nat) : Nat → Option JValue × List ℚ
  | 0 => (none, [])
  | remaining + 1 =>
    match oracle attempt with
    | .success body => (some body, [])
    | .failure =>
      let s := delay * 2 ^ attempt * jitter attempt
      if remaining = 0 then (none, [s])
      else
        let r := fetchFrom oracle delay jitter (attempt + 1) remaining
        (r.1, s :: r.2)

/-- `EnsemblAPI.fetch_data(rat_gene, retries, delay)`: run the retry loop
from attempt 0 with `retries` iterations remaining. -/
def fetch_data (oracle : Nat → AttemptResult) (retries : Nat) (delay : ℚ)
    (jitter : Nat → ℚ) : Option JValue × List ℚ :=
  fetchFrom oracle delay jitter 0 retries

/-- The comprehension filter `homology['target']['species'] == 'homo_sapiens'`
(api.py line 125).  Python `==` between a string literal and a non-string
value is `False` without raising. -/
def speciesIsHuman (homology : JValue) : Except PyErr Bool := do
  let target ← homology.subKey "target"
  let species ← target.subKey "species"
  match species with
  | .str s => return s == "homo_sapiens"
  | _ => return false

/-- The dictionary built for one matching homology entry
(api.py lines 119–125). -/
def mkOrthologRecord (rat_gene : JValue) (homology : JValue) :
    Except PyErr PyDict := do
  let target ← homology.subKey "target"
  let gene_symbol ← target.subKey "id"
  let homType ← homology.subKey "type"
  let identity ← target.subKey "perc_id"
  let positivity ← target.subKey "perc_pos"
  return [("rat_gene", rat_gene), ("gene_symbol", gene_symbol),
          ("type", homType), ("identity", identity),
          ("positivity", positivity)]

/-- The list comprehension of api.py lines 118–126: keep the entries whose
target species is `homo_sapiens`, mapped to ortholog records, in order. -/
def buildOrthologs (rat_gene : JValue) : List JValue → Except PyErr (List PyDict)
  | [] => .ok []
  | homology :: rest => do
    let isHuman ← speciesIsHuman homology
    if isHuman then
      let record ← mkOrthologRecord rat_gene homology
      let tail ← buildOrthologs rat_gene rest
      return record :: tail
    else
      buildOrthologs rat_gene rest

/-- The "not found" sentinel record appended by api.py lines 129–135. -/
def notFoundRecord (rat_gene : JValue) : PyDict :=
  [("rat_gene", rat_gene), ("gene_symbol", .str "not found"),
   ("type", .str ""), ("identity", .str ""), ("positivity", .str "")]

/-- The "error - retries exceeded" sentinel record of api.py line 94. -/
def retriesExceededRecord (rat_gene : JValue) : PyDict :=
  [("rat_gene", rat_gene), ("gene_symbol", .str "error - retries exceeded"),
   ("type", .str ""), ("identity", .str ""), ("positivity", .str "")]

/-- `EnsemblAPI.process_response(data, rat_gene)` (api.py lines 96–136).
The guard `if data and data['data'][0]['homologies']:` short-circuits on a
falsy `data`; otherwise it subscripts `data['data'][0]['homologies']`
unguarded, which can raise (KeyError / IndexError).  When the comprehension
yields no records the single "not found" sentinel is returned instead. -/
def process_response (data : JValue) (rat_gene : JValue) :
    Except PyErr (List PyDict) := do
  let human_orthologs ←
    if data.truthy then do
      let dataField ← data.subKey "data"
      let first ← dataField.subIdx 0
      let homologies ← first.subKey "homologies"
      if homologies.truthy then do
        let entries ← homologies.iterate
        buildOrthologs rat_gene entries
      else
        pure []
    else
      pure []
  if human_orthologs.isEmpty then
    return [notFoundRecord rat_gene]
  else
    return human_orthologs

/-- `EnsemblAPI.get_human_ortholog(rat_gene, retries, delay)`
(api.py lines 73–94).  `if data:` is Python truthiness, so both a `None`
from exhausted retries and a falsy JSON body take the failure branch and
return the "error - retries exceeded" sentinel with the error flag set. -/
def get_human_ortholog (oracle : Nat → AttemptResult) (rat_gene : JValue)
    (retries : Nat) (delay : ℚ) (jitter : Nat → ℚ) :
    Except PyErr (List PyDict × Bool) :=
  match (fetch_data oracle retries delay jitter).1 with
  | some data =>
    if data.truthy then
      (process_response data rat_gene).map (fun records => (records, false))
    else
      .ok ([retriesExceededRecord rat_gene], true)
  | none => .ok ([retriesExceededRecord rat_gene], true)

/-! ## `src/file_processing.py` -/

/-- `validate_input_file` (file_processing.py lines 7–27), over the parsed
rows of the CSV file.  `headers = next(reader, None)` is the first row (or
`None` for an empty file); `if not headers:` rejects both a missing and an
empty header row, then `'Pig Gene' not in headers` rejects a header without
the designated column. -/
def validate_input_file (rows : List (List String)) : Except PyErr Unit :=
  match rows.head? with
  | none => .error (.valueError "The input CSV file is empty.")
  | some headers =>
    if headers.isEmpty then
      .error (.valueError "The input CSV file is empty.")
    else if headers.contains "Pig Gene" then
      .ok ()
    else
      .error (.valueError "The input CSV file must contain a Pig Gene column.")

/-- Replace the binding of `k` in a dict (or append it), mirroring Python
dict construction where a later binding of the same key overwrites. -/
def PyDict.set : PyDict → String → JValue → PyDict
  | [], k, v => [(k, v)]
  | (k', v') :: rest, k, v =>
    if k' == k then (k, v) :: rest else (k', v') :: PyDict.set rest k v

/-- One data row as produced by `csv.DictReader`: the fieldnames (the header
row) zipped against the row's cells, missing trailing cells filled with
`None` (the reader's default `restval`). -/
def dictReaderRow (headers : List String) (cells : List String) : PyDict :=
  (headers.enum).foldl
    (fun d iv =>
      d.set iv.2 (match cells.get? iv.1 with
                  | some c => .str c
                  | none => .null))
    []

/-- The per-gene worker `process_gene` and the batch loop of `process_csv`
see the resolver only through `api.get_human_ortholog`; the batch pipeline
is therefore parameterised by the lookup it is given (the tests inject a
mock here).  A raised lookup is an `Except.error`. -/
abbrev LookupFn := JValue → Except PyErr (List PyDict × Bool)

/-- One iteration of the `for ortholog in human_orthologs` loop of
`process_gene` (file_processing.py lines 71–84): build the output row from
the record — reading `ortholog['pig_gene']` first, which raises KeyError
when the record does not carry that key — then re-read
`ortholog['gene_symbol']` for the sentinel test.  `== 'not found'` never
raises, but `.startswith('error')` raises AttributeError when the symbol is
not a string. -/
def outRowOf (ortholog : PyDict) : Except PyErr PyDict := do
  let pig_gene ← ortholog.find "pig_gene"
  let gene_symbol ← ortholog.find "gene_symbol"
  let homType ← ortholog.find "type"
  let identity ← ortholog.find "identity"
  let positivity ← ortholog.find "positivity"
  return [("Pig Gene", pig_gene),
          ("Human Ortholog Gene Symbol", gene_symbol),
          ("Type", homType),
          ("Identity (%)", identity),
          ("Positivity (%)", positivity)]

/-- The sentinel test of file_processing.py line 79 on the value of
`ortholog['gene_symbol']`. -/
def sentinelCheck (gene_symbol : JValue) : Except PyErr Bool :=
  match gene_symbol with
  | .str s => .ok (s == "not found" || s.startsWith "error")
  | _ => .error .attrError

/-- The record loop of `process_gene`.  Returns the accumulated `results`
list (`none` when the loop raised, in which case the whole task raises and
its results are discarded) together with the increments the loop applied to
the two `nonlocal` counters `not_found_count` and `error_count`; those
increments are shared mutations and survive a raise that happens on a later
record. -/
def geneRecordLoop (error : Bool) : List PyDict → Option (List PyDict) × Nat × Nat
  | [] => (some [], 0, 0)
  | ortholog :: rest =>
    match outRowOf ortholog with
    | .error _ => (none, 0, 0)
    | .ok row =>
      match sentinelCheck ((ortholog.lookup "gene_symbol").getD .null) with
      | .error _ => (none, 0, 0)
      | .ok isSentinel =>
        let dn : Nat := if isSentinel then 1 else 0
        let de : Nat := if isSentinel && error then 1 else 0
        let r := geneRecordLoop error rest
        ((r.1).map (fun tail => row :: tail), dn + r.2.1, de + r.2.2)

/-- The per-gene task `process_gene(pig_gene)` (file_processing.py lines
68–85): call the lookup, then run the record loop.  `none` in the first
component means the task raised (the exception is later caught by the
coordinating loop); the two counters report the increments the task applied
to the shared tally before finishing or raising. -/
def process_gene (api : LookupFn) (pig_gene : JValue) :
    Option (List PyDict) × Nat × Nat :=
  match api pig_gene with
  | .error _ => (none, 0, 0)
  | .ok (human_orthologs, error) => geneRecordLoop error human_orthologs

/-- The tally and data rows of one batch run: the data rows written after
the header row, in write order, and the final values of `not_found_count`
and `error_count`. -/
structure CsvRun where
  outRows : List PyDict
  not_found_count : Nat
  error_count : Nat

/-- The `as_completed` drain loop of `process_csv` (file_processing.py lines
88–99), serialised in input order (completion order is nondeterministic but
every property proved below is order-insensitive): each completed task has
its result rows written one by one; a task that raised is caught and logged
and contributes no rows; either way the loop moves on to the next task. -/
def runGenes (api : LookupFn) : List JValue → CsvRun
  | [] => ⟨[], 0, 0⟩
  | gene :: rest =>
    let t := process_gene api gene
    let r := runGenes api rest
    ⟨(t.1).getD [] ++ r.outRows, t.2.1 + r.not_found_count,
     t.2.2 + r.error_count⟩

/-- The gene-symbol extraction `[row['Pig Gene'] for row in gene_reader]`
(file_processing.py line 66).  Reached only when `'Pig Gene'` is among the
fieldnames, in which case every `DictReader` row carries the key (missing
trailing cells are filled with `None`), so the `getD` default never fires
on that path. -/
def extract_pig_genes (headers : List String) (dataRows : List (List String)) :
    List JValue :=
  dataRows.map (fun r => ((dictReaderRow headers r).lookup "Pig Gene").getD .null)

/-- `process_csv(input, output, api)` (file_processing.py lines 29–101):
validate the header first (raising a ValueError before anything else
happens); re-check the column against the `DictReader` fieldnames — that
branch's body references the unimported name `sys` and so would raise a
NameError; then write the header, extract the gene symbols, and drain the
pool.  The returned `CsvRun` holds the written data rows and the final
tally `(not_found_count, error_count)`. -/
def process_csv (api : LookupFn) (rows : List (List String)) :
    Except PyErr CsvRun := do
  let _ ← validate_input_file rows
  match rows with
  | [] =>
    .error .typeError
  | headers :: dataRows =>
    if headers.contains "Pig Gene" then
      .ok (runGenes api (extract_pig_genes headers dataRows))
    else
      .error (.nameError "sys")

/-! ## Well-formed responses and concrete inputs -/

/-- A well-formed homology entry of the remote service contract:
shape `{type, target: {id, species, perc_id, perc_pos}}`. -/
structure Homology where
  species : String
  targetId : JValue
  homType : JValue
  percId : JValue
  percPos : JValue

/-- The JSON encoding of a well-formed homology entry. -/
def Homology.encode (h : Homology) : JValue :=
  .obj [("type", h.homType),
        ("target", .obj [("id", h.targetId), ("species", .str h.species),
                         ("perc_id", h.percId), ("perc_pos", h.percPos)])]

/-- A well-formed response body whose first `data` entry carries the given
homology list; `rest` are any further `data` entries (ignored by the code,
which only reads `data[0]`). -/
def homologyResponse (hs : List Homology) (rest : List JValue) : JValue :=
  .obj [("data", .arr (.obj [("homologies", .arr (hs.map Homology.encode))] :: rest))]

/-- The record the specification says one matching homology entry maps to:
symbol from `target.id`, homology type from `type`, identity from
`target.perc_id`, positivity from `target.perc_pos`.  Stated from the
specification's words, to be compared with the records `process_response`
produces. -/
def expectedRecord (rat_gene : JValue) (h : Homology) : PyDict :=
  [("rat_gene", rat_gene), ("gene_symbol", h.targetId), ("type", h.homType),
   ("identity", h.percId), ("positivity", h.percPos)]

/-- The specification's filter-and-map over a well-formed homology list:
keep the `homo_sapiens` targets, in order, and map each to its record. -/
def expectedRecords (rat_gene : JValue) (hs : List Homology) : List PyDict :=
  (hs.filter (fun h => h.species == "homo_sapiens")).map (expectedRecord rat_gene)

/-- The header condition of the schema check: the input has no header row,
an empty header row, or a header row without the designated column. -/
def badHeader (rows : List (List String)) : Bool :=
  match rows.head? with
  | none => true
  | some headers => headers.isEmpty || !(headers.contains "Pig Gene")

/-- The human homology entry of the specification's worked scenario
(symbol PDX1, type ortholog_one2one, identity 98.5, positivity 97.2). -/
def demoHomology : Homology :=
  ⟨"homo_sapiens", .str "PDX1", .str "ortholog_one2one",
   .num (985 / 10), .num (972 / 10)⟩

/-- A homology entry whose target is not human. -/
def mouseHomology : Homology :=
  ⟨"mus_musculus", .str "Pdx1", .str "ortholog_one2one",
   .num (90 : ℚ), .num (95 : ℚ)⟩

/-- A well-formed response with exactly the one human homology entry. -/
def demoBody : JValue := homologyResponse [demoHomology] []

/-- The full resolver for a batch run whose every HTTP attempt succeeds
with `demoBody`: exactly `EnsemblAPI.get_human_ortholog` with the default
`retries=3, delay=2` and unit jitter. -/
def demoResolver : LookupFn := fun g =>
  get_human_ortholog (fun _ => .success demoBody) g 3 2 (fun _ => 1)

/-- An injected lookup (the pipeline takes the resolver as a parameter, as
the repository's own tests do with a mock) whose first record is a complete
"not found" sentinel keyed the way `process_gene` reads it, and whose
second record is an empty dict: the task tallies the first record and then
raises KeyError on the second. -/
def crashLookup : LookupFn := fun v =>
  .ok ([[("pig_gene", v), ("gene_symbol", .str "not found"),
         ("type", .str ""), ("identity", .str ""), ("positivity", .str "")],
        []], false)

/-- An injected lookup returning one complete, writable record per gene. -/
def okLookup : LookupFn := fun v =>
  .ok ([[("pig_gene", v), ("gene_symbol", .str "GOOD"), ("type", .str "t"),
         ("identity", .num (1 : ℚ)), ("positivity", .num (2 : ℚ))]], false)

/-- A lookup that makes exactly the task for gene "A" raise mid-loop and
every other gene complete normally. -/
def mixedLookup : LookupFn := fun v =>
  match v with
  | .str "A" => crashLookup (.str "A")
  | _ => okLookup v

/-! ## Helper lemmas -/

/-- The retry loop returns `none` exactly when every attempt in its window
fails. -/
theorem fetchFrom_none_iff (o : Nat → AttemptResult) (d : ℚ) (j : Nat → ℚ) :
    ∀ r a, (fetchFrom o d j a r).1 = none ↔
      ∀ i, i < r → o (a + i) = AttemptResult.failure := by
  intro r
  induction r with
  | zero =>
    intro a
    simp [fetchFrom]
  | succ n ih =>
    intro a
    cases ho : o a with
    | success body =>
      simp only [fetchFrom, ho]
      constructor
      · intro h; cases h
      · intro h
        have := h 0 (Nat.succ_pos n)
        rw [Nat.add_zero, ho] at this
        cases this
    | failure =>
      by_cases hn : n = 0
      · subst hn
        simp only [fetchFrom, ho, if_pos rfl]
        constructor
        · intro _ i hi
          interval_cases i
          simpa using ho
        · intro _; rfl
      · simp only [fetchFrom, ho, if_neg hn]
        rw [show ((fetchFrom o d j (a + 1) n).1,
              d * 2 ^ a * j a :: (fetchFrom o d j (a + 1) n).2).1
            = (fetchFrom o d j (a + 1) n).1 from rfl]
        rw [ih (a + 1)]
        constructor
        · intro h i hi
          match i, hi with
          | 0, _ => simpa using ho
          | k + 1, hk =>
            have := h k (by omega)
            simpa [Nat.add_assoc, Nat.add_comm 1 k] using this
        · intro h i hi
          have := h (i + 1) (by omega)
          simpa [Nat.add_assoc, Nat.add_comm 1 i] using this

/-- When every attempt in the window fails, the recorded sleeps are exactly
`delay * 2 ^ attempt * jitter attempt` for each attempt of the window, in
order — one sleep per failed attempt, the final attempt included. -/
theorem fetchFrom_sleeps (o : Nat → AttemptResult) (d : ℚ) (j : Nat → ℚ) :
    ∀ r a, (∀ i, i < r → o (a + i) = AttemptResult.failure) →
      (fetchFrom o d j a r).2 =
        (List.range r).map (fun i => d * 2 ^ (a + i) * j (a + i)) := by
  intro r
  induction r with
  | zero => intro a _; simp [fetchFrom]
  | succ n ih =>
    intro a h
    have ho : o a = AttemptResult.failure := by simpa using h 0 (Nat.succ_pos n)
    by_cases hn : n = 0
    · subst hn
      have hr1 : List.range 1 = [0] := rfl
      simp [fetchFrom, ho, hr1]
    · simp only [fetchFrom, ho, if_neg hn]
      have htail : ∀ i, i < n → o (a + 1 + i) = AttemptResult.failure := by
        intro i hi
        have := h (i + 1) (by omega)
        simpa [Nat.add_assoc, Nat.add_comm 1 i] using this
      rw [List.range_succ_eq_map, List.map_cons, List.map_map, ih (a + 1) htail,
        Nat.add_zero]
      congr 1
      apply List.map_congr_left
      intro i _
      have hii : a + 1 + i = a + (i + 1) := by omega
      simp [Function.comp, hii]

/-- The comprehension filter evaluates without raising on an encoded
homology entry, to the species test. -/
theorem speciesIsHuman_encode (h : Homology) :
    speciesIsHuman h.encode = .ok (h.species == "homo_sapiens") := rfl

/-- The comprehension body evaluates without raising on an encoded homology
entry, to the record the specification describes. -/
theorem mkOrthologRecord_encode (g : JValue) (h : Homology) :
    mkOrthologRecord g h.encode = .ok (expectedRecord g h) := rfl

/-- On an encoded homology list the comprehension of `process_response`
returns exactly the specification's filter-and-map. -/
theorem buildOrthologs_encode (g : JValue) (hs : List Homology) :
    buildOrthologs g (hs.map Homology.encode) = .ok (expectedRecords g hs) := by
  induction hs with
  | nil => rfl
  | cons h t ih =>
    simp only [List.map_cons, buildOrthologs, speciesIsHuman_encode,
      mkOrthologRecord_encode, ih, Bind.bind, Except.bind, expectedRecords,
      List.filter_cons]
    by_cases hh : (h.species == "homo_sapiens") = true
    · simp [hh, expectedRecords, Pure.pure, Except.pure]
    · simp only [Bool.not_eq_true] at hh
      simp [hh, expectedRecords, Pure.pure, Except.pure]

/-- `process_response` on a well-formed response returns the
specification's filter-and-map when it is non-empty, and the "not found"
sentinel when it is empty. -/
theorem process_response_encode (g : JValue) (hs : List Homology)
    (rest : List JValue) :
    process_response (homologyResponse hs rest) g =
      .ok (if (expectedRecords g hs).isEmpty then [notFoundRecord g]
           else expectedRecords g hs) := by
  cases hs with
  | nil => rfl
  | cons h t =>
    have hb := buildOrthologs_encode g (h :: t)
    rw [List.map_cons] at hb
    simp only [process_response, homologyResponse, JValue.truthy, JValue.subKey,
      JValue.subIdx, JValue.iterate, Bind.bind, Except.bind, List.lookup,
      List.map_cons, List.get?,
      show (("data" : String) == "data") = true from rfl,
      show (("homologies" : String) == "homologies") = true from rfl,
      List.isEmpty_cons, Bool.not_false, if_true, hb]
    by_cases he : (expectedRecords g (h :: t)).isEmpty
    · simp [he, Pure.pure, Except.pure]
    · simp [he, Pure.pure, Except.pure]

/-- When the fetch yields a truthy body, `get_human_ortholog` is
`process_response` with the error flag cleared. -/
theorem get_human_ortholog_of_fetch_some (o : Nat → AttemptResult) (g : JValue)
    (n : Nat) (d : ℚ) (j : Nat → ℚ) (body : JValue)
    (hf : (fetch_data o n d j).1 = some body) (ht : body.truthy = true) :
    get_human_ortholog o g n d j =
      (process_response body g).map (fun r => (r, false)) := by
  simp [get_human_ortholog, hf, ht]

/-- A value on which a string subscript succeeds is a non-empty dict, hence
truthy. -/
theorem truthy_of_subKey_ok {body v : JValue} {k : String}
    (h : body.subKey k = .ok v) : body.truthy = true := by
  cases body with
  | obj kvs =>
    cases kvs with
    | nil => simp [JValue.subKey, List.lookup] at h
    | cons p rest => simp [JValue.truthy]
  | null => simp [JValue.subKey] at h
  | bool b => simp [JValue.subKey] at h
  | num q => simp [JValue.subKey] at h
  | str s => simp [JValue.subKey] at h
  | arr xs => simp [JValue.subKey] at h

/-- In the record loop, every `error_count` increment comes with a
`not_found_count` increment, so its reported increments never favour the
error side. -/
theorem geneRecordLoop_invariant (error : Bool) (orths : List PyDict) :
    (geneRecordLoop error orths).2.2 ≤ (geneRecordLoop error orths).2.1 := by
  induction orths with
  | nil => simp [geneRecordLoop]
  | cons o rest ih =>
    simp only [geneRecordLoop]
    cases outRowOf o with
    | error e => simp
    | ok row =>
      cases sentinelCheck ((o.lookup "gene_symbol").getD .null) with
      | error e => simp
      | ok isSent =>
        cases isSent <;> cases error <;> simp <;> omega

/-- A task's tally increments never favour the error side. -/
theorem process_gene_invariant (api : LookupFn) (g : JValue) :
    (process_gene api g).2.2 ≤ (process_gene api g).2.1 := by
  unfold process_gene
  cases api g with
  | error e => simp
  | ok pr =>
    obtain ⟨orths, err⟩ := pr
    exact geneRecordLoop_invariant err orths

/-- The run tally never favours the error side. -/
theorem runGenes_invariant (api : LookupFn) (genes : List JValue) :
    (runGenes api genes).error_count ≤ (runGenes api genes).not_found_count := by
  induction genes with
  | nil => simp [runGenes]
  | cons g rest ih =>
    have h1 := process_gene_invariant api g
    simp only [runGenes]
    omega

/-- The drain loop distributes over concatenation of the gene list: each
gene's row block and tally increments are independent of its neighbours. -/
theorem runGenes_append (api : LookupFn) (xs ys : List JValue) :
    runGenes api (xs ++ ys) =
      ⟨(runGenes api xs).outRows ++ (runGenes api ys).outRows,
       (runGenes api xs).not_found_count + (runGenes api ys).not_found_count,
       (runGenes api xs).error_count + (runGenes api ys).error_count⟩ := by
  induction xs with
  | nil => simp [runGenes]
  | cons g rest ih =>
    simp [runGenes, ih, CsvRun.mk.injEq, List.append_assoc, Nat.add_assoc]

/-! ## Claim theorems -/

/-- Claim C2, counterexample: with `max_attempts = 1` and the single
attempt raising, the lookup performs one backoff sleep, not `1 - 1 = 0`:
`handle_error` sleeps unconditionally, the final failed attempt included. -/
theorem C2_counterexample :
    ¬ ((fetch_data (fun _ => AttemptResult.failure) 1 2 (fun _ => 1)).2.length
        = 1 - 1) := by
  decide

/-- Claim C2, amended: when every one of the `n ≥ 0` attempts raises, the
backoff sleep is invoked exactly `n` times — once after every failed
attempt, the final one included — with the i-th sleep lasting
`base_delay * 2 ^ i * jitter i`; the expected durations (jitter expectation
1, since the jitter is uniform on [0.8, 1.2)) are strictly increasing
across the invocations whenever the base delay is positive. -/
theorem C2_backoff_sleeps (o : Nat → AttemptResult) (n : Nat) (d : ℚ)
    (j : Nat → ℚ) (hfail : ∀ i, i < n → o i = AttemptResult.failure)
    (hd : 0 < d) :
    (fetch_data o n d j).2 = (List.range n).map (fun i => d * 2 ^ i * j i) ∧
    ∀ i k, i < k → k < n → d * 2 ^ i < d * 2 ^ k := by
  constructor
  · have := fetchFrom_sleeps o d j n 0 (by simpa using hfail)
    simpa using this
  · intro i k hik _
    have h2 : (2 : ℚ) ^ i < 2 ^ k :=
      pow_lt_pow_right₀ (by norm_num) hik
    exact (mul_lt_mul_left hd).mpr h2

/-- Claim C2, witness: three failing attempts with base delay 2 and unit
jitter sleep exactly [2, 4, 8]. -/
theorem C2_backoff_sleeps_witness :
    (∀ i, i < 3 → (fun _ => AttemptResult.failure) i = AttemptResult.failure)
      ∧ (0 : ℚ) < 2
      ∧ ((fetch_data (fun _ => AttemptResult.failure) 3 2 (fun _ => 1)).2 =
           (List.range 3).map (fun i => 2 * 2 ^ i * 1) ∧
         ∀ i k, i < k → k < 3 → (2 : ℚ) * 2 ^ i < 2 * 2 ^ k) :=
  ⟨fun _ _ => rfl, by norm_num,
   C2_backoff_sleeps (fun _ => AttemptResult.failure) 3 2 (fun _ => 1)
     (fun _ _ => rfl) (by norm_num)⟩

/-- Claim C3, counterexample: attempt 0 completes with a 2xx response whose
JSON body is the empty object, yet the lookup reports
`failed = true` with the "error - retries exceeded" sentinel (the code
tests `if data:`, and an empty object is falsy). -/
theorem C3_counterexample :
    get_human_ortholog (fun _ => AttemptResult.success (.obj [])) (.str "G")
        3 2 (fun _ => 1)
      = .ok ([retriesExceededRecord (.str "G")], true) := rfl

/-- Claim C3, amended: the outcome has `failed = true` iff the fetch result
was absent (all attempts raised) or a falsy JSON body (for example an empty
object or list); when `failed = true` the record list is exactly the
"error - retries exceeded" sentinel; and the fetch result is absent iff
every one of the `max_attempts` attempts raised. -/
theorem C3_failed_flag (o : Nat → AttemptResult) (g : JValue) (n : Nat)
    (d : ℚ) (j : Nat → ℚ) (recs : List PyDict) (fl : Bool)
    (h : get_human_ortholog o g n d j = .ok (recs, fl)) :
    (fl = true ↔
      Option.elim (fetch_data o n d j).1 True (fun b => b.truthy = false)) ∧
    (fl = true → recs = [retriesExceededRecord g]) ∧
    ((fetch_data o n d j).1 = none ↔
      ∀ i, i < n → o i = AttemptResult.failure) := by
  have hnone : (fetch_data o n d j).1 = none ↔
      ∀ i, i < n → o i = AttemptResult.failure := by
    have := fetchFrom_none_iff o d j n 0
    simpa using this
  have key : (fl = true ↔
      Option.elim (fetch_data o n d j).1 True (fun b => b.truthy = false)) ∧
      (fl = true → recs = [retriesExceededRecord g]) := by
    cases hf : (fetch_data o n d j).1 with
    | none =>
      simp only [get_human_ortholog, hf, Except.ok.injEq, Prod.mk.injEq] at h
      obtain ⟨h1, h2⟩ := h
      constructor
      · simp [hf, ← h2]
      · intro _; exact h1.symm
    | some body =>
      by_cases ht : body.truthy = true
      · rw [get_human_ortholog_of_fetch_some o g n d j body hf ht] at h
        cases hp : process_response body g with
        | error e => rw [hp] at h; cases h
        | ok l =>
          rw [hp] at h
          simp only [Except.map, Except.ok.injEq, Prod.mk.injEq] at h
          obtain ⟨h1, h2⟩ := h
          constructor
          · simp [hf, ← h2, ht]
          · intro hcontra
            rw [← h2] at hcontra
            cases hcontra
      · have ht2 : body.truthy = false := by
          cases hb : body.truthy
          · rfl
          · exact absurd hb ht
        simp only [get_human_ortholog, hf, ht2, Bool.false_eq_true, if_false,
          Except.ok.injEq, Prod.mk.injEq] at h
        obtain ⟨h1, h2⟩ := h
        constructor
        · simp [hf, ← h2, ht2]
        · intro _; exact h1.symm
  exact ⟨key.1, key.2, hnone⟩

/-- Claim C3, witness: one attempt, raising — the lookup reports the sentinel
with `failed = true`, the flag matches the absent fetch result, and the
absence is equivalent to all attempts raising. -/
theorem C3_failed_flag_witness :
    (get_human_ortholog (fun _ => AttemptResult.failure) (.str "G") 1 2
        (fun _ => 1) = .ok ([retriesExceededRecord (.str "G")], true)) ∧
    ((true = true ↔
        Option.elim (fetch_data (fun _ => AttemptResult.failure) 1 2
          (fun _ => 1)).1 True (fun b => b.truthy = false)) ∧
      (true = true → [retriesExceededRecord (.str "G")]
          = [retriesExceededRecord (.str "G")]) ∧
      ((fetch_data (fun _ => AttemptResult.failure) 1 2 (fun _ => 1)).1 = none
        ↔ ∀ i, i < 1 → (fun _ => AttemptResult.failure) i
            = AttemptResult.failure)) :=
  ⟨rfl, C3_failed_flag (fun _ => AttemptResult.failure) (.str "G") 1 2
    (fun _ => 1) [retriesExceededRecord (.str "G")] true rfl⟩

/-- Claim C4: when the fetched well-formed response contains at least one
homology entry whose target species is homo_sapiens, the lookup returns
exactly the records obtained by filtering `data[0].homologies` to
homo_sapiens targets and mapping each to a record built from `target.id`,
`type`, `target.perc_id` and `target.perc_pos`, in the response's order,
with `failed = false`. -/
theorem C4_human_orthologs (o : Nat → AttemptResult) (g : JValue) (n : Nat)
    (d : ℚ) (j : Nat → ℚ) (hs : List Homology) (rest : List JValue)
    (hfetch : (fetch_data o n d j).1 = some (homologyResponse hs rest))
    (hhuman : ∃ h ∈ hs, h.species = "homo_sapiens") :
    get_human_ortholog o g n d j = .ok (expectedRecords g hs, false) := by
  have htruthy : (homologyResponse hs rest).truthy = true := by
    simp [homologyResponse, JValue.truthy]
  rw [get_human_ortholog_of_fetch_some o g n d j _ hfetch htruthy,
    process_response_encode]
  obtain ⟨h, hmem, hsp⟩ := hhuman
  have hne : (expectedRecords g hs).isEmpty = false := by
    have : h ∈ hs.filter (fun x => x.species == "homo_sapiens") := by
      rw [List.mem_filter]
      exact ⟨hmem, by simp [hsp]⟩
    have hfne : hs.filter (fun x => x.species == "homo_sapiens") ≠ [] :=
      List.ne_nil_of_mem this
    simp [expectedRecords, List.isEmpty_iff, hfne]
  rw [hne]
  rfl

/-- Claim C4, witness: a response with the single PDX1 human homology entry
yields exactly that record with `failed = false`. -/
theorem C4_human_orthologs_witness :
    ((fetch_data (fun _ => AttemptResult.success demoBody) 3 2
        (fun _ => 1)).1 = some (homologyResponse [demoHomology] [])) ∧
    (∃ h ∈ [demoHomology], h.species = "homo_sapiens") ∧
    get_human_ortholog (fun _ => AttemptResult.success demoBody) (.str "Pdx1")
        3 2 (fun _ => 1)
      = .ok (expectedRecords (.str "Pdx1") [demoHomology], false) :=
  ⟨rfl, ⟨demoHomology, by simp, rfl⟩,
   C4_human_orthologs (fun _ => AttemptResult.success demoBody) (.str "Pdx1")
     3 2 (fun _ => 1) [demoHomology] [] rfl ⟨demoHomology, by simp, rfl⟩⟩

/-- Claim C5: when the fetched well-formed response's homology list has no
homo_sapiens target, the lookup returns exactly one sentinel record with
target symbol "not found" and empty homology-type, identity and positivity
fields, with `failed = false`. -/
theorem C5_not_found (o : Nat → AttemptResult) (g : JValue) (n : Nat)
    (d : ℚ) (j : Nat → ℚ) (hs : List Homology) (rest : List JValue)
    (hfetch : (fetch_data o n d j).1 = some (homologyResponse hs rest))
    (hnohuman : ∀ h ∈ hs, h.species ≠ "homo_sapiens") :
    get_human_ortholog o g n d j = .ok ([notFoundRecord g], false) := by
  have htruthy : (homologyResponse hs rest).truthy = true := by
    simp [homologyResponse, JValue.truthy]
  rw [get_human_ortholog_of_fetch_some o g n d j _ hfetch htruthy,
    process_response_encode]
  have hempty : (expectedRecords g hs).isEmpty = true := by
    have hfil : hs.filter (fun x => x.species == "homo_sapiens") = [] := by
      rw [List.filter_eq_nil_iff]
      intro h hmem
      simpa using hnohuman h hmem
    simp [expectedRecords, hfil]
  rw [hempty]
  rfl

/-- Claim C5, witness: a response whose single homology entry targets the
mouse yields exactly the "not found" sentinel with `failed = false`. -/
theorem C5_not_found_witness :
    ((fetch_data (fun _ => AttemptResult.success
        (homologyResponse [mouseHomology] [])) 3 2 (fun _ => 1)).1
      = some (homologyResponse [mouseHomology] [])) ∧
    (∀ h ∈ [mouseHomology], h.species ≠ "homo_sapiens") ∧
    get_human_ortholog (fun _ => AttemptResult.success
        (homologyResponse [mouseHomology] [])) (.str "Pdx1") 3 2 (fun _ => 1)
      = .ok ([notFoundRecord (.str "Pdx1")], false) :=
  ⟨rfl, by simp [mouseHomology],
   C5_not_found (fun _ => AttemptResult.success
       (homologyResponse [mouseHomology] [])) (.str "Pdx1") 3 2 (fun _ => 1)
     [mouseHomology] [] rfl (by simp [mouseHomology])⟩

/-- Claim C6: for every input whose header row is missing, empty, or lacks
the designated "Pig Gene" column, the batch run raises the schema error
(a ValueError from `validate_input_file`) whose message depends only on the
input — the same error for every resolver, so no lookup is consulted and no
output row is produced (the run aborts entirely, not per-gene). -/
theorem C6_schema_error (rows : List (List String))
    (hbad : badHeader rows = true) :
    ∃ msg, ∀ api : LookupFn, process_csv api rows = .error (.valueError msg) := by
  match rows with
  | [] =>
    exact ⟨"The input CSV file is empty.", fun api => rfl⟩
  | headers :: t =>
    by_cases he : headers.isEmpty
    · refine ⟨"The input CSV file is empty.", fun api => ?_⟩
      simp [process_csv, validate_input_file, he, Bind.bind, Except.bind]
    · have hc : headers.contains "Pig Gene" = false := by
        simp only [badHeader, List.head?] at hbad
        rcases Bool.or_eq_true_iff.mp hbad with h1 | h1
        · exact absurd h1 he
        · simpa using h1
      have hc2 : ¬ ("Pig Gene" ∈ headers) := by simpa using hc
      refine ⟨"The input CSV file must contain a Pig Gene column.",
        fun api => ?_⟩
      simp [process_csv, validate_input_file, he, hc, hc2, Bind.bind,
        Except.bind]

/-- Claim C6, witness: a header lacking the column aborts with the schema
error for every resolver. -/
theorem C6_schema_error_witness :
    badHeader [["Wrong Header"], ["Value"]] = true ∧
    ∃ msg, ∀ api : LookupFn,
      process_csv api [["Wrong Header"], ["Value"]]
        = .error (.valueError msg) :=
  ⟨rfl, C6_schema_error [["Wrong Header"], ["Value"]] rfl⟩

/-- Claim C7: at every point of a batch run the tally invariant
`not_found_count ≥ error_count` holds — after any prefix of completed
genes, and within any single task after any prefix of its records —
because `error_count` is only incremented together with an increment of
`not_found_count` (file_processing.py lines 79–84), never independently. -/
theorem C7_tally_invariant (api : LookupFn) (genes : List JValue) (k : Nat)
    (error : Bool) (orths : List PyDict) :
    (runGenes api (genes.take k)).error_count
        ≤ (runGenes api (genes.take k)).not_found_count ∧
    (geneRecordLoop error orths).2.2 ≤ (geneRecordLoop error orths).2.1 :=
  ⟨runGenes_invariant api (genes.take k), geneRecordLoop_invariant error orths⟩

/-- Claim C8, counterexample: a per-gene task whose lookup outcome holds a
complete "not found" record followed by an empty record tallies the first
record and then raises; the gene contributes zero output rows, yet the
batch tally shows `not_found_count = 1` — the increments made before the
exception are not rolled back, contradicting "no tally increments". -/
theorem C8_counterexample :
    runGenes crashLookup [.str "A"] = ⟨[], 1, 0⟩ ∧ (1 : Nat) ≠ 0 :=
  ⟨rfl, by decide⟩

/-- Claim C8, amended: when the task of one gene raises an unexpected
exception, the coordinating loop catches it: that gene contributes zero
output rows, the remaining genes' tasks still run and have their row blocks
written, the run completes (the batch is not aborted) — but the tally
increments the failing task performed before raising are retained, not
rolled back. -/
theorem C8_task_isolation (api : LookupFn) (pre post : List JValue)
    (g : JValue) (hraise : (process_gene api g).1 = none) :
    (runGenes api (pre ++ g :: post)).outRows =
      (runGenes api pre).outRows ++ (runGenes api post).outRows ∧
    (runGenes api (pre ++ g :: post)).not_found_count =
      (runGenes api pre).not_found_count + (process_gene api g).2.1 +
        (runGenes api post).not_found_count ∧
    (runGenes api (pre ++ g :: post)).error_count =
      (runGenes api pre).error_count + (process_gene api g).2.2 +
        (runGenes api post).error_count := by
  rw [runGenes_append api pre (g :: post)]
  simp only [runGenes, hraise, Option.getD_none, List.nil_append]
  exact ⟨trivial, by omega, by omega⟩

/-- Claim C8, witness: gene "A" crashes mid-task between genes "B" and "C";
its block is absent from the output, the neighbours' rows are written, and
the retained increment from the crashed task appears in the tally. -/
theorem C8_task_isolation_witness :
    (process_gene mixedLookup (.str "A")).1 = none ∧
    ((runGenes mixedLookup ([.str "B"] ++ .str "A" :: [.str "C"])).outRows =
        (runGenes mixedLookup [.str "B"]).outRows ++
          (runGenes mixedLookup [.str "C"]).outRows ∧
      (runGenes mixedLookup ([.str "B"] ++ .str "A" :: [.str "C"])).not_found_count =
        (runGenes mixedLookup [.str "B"]).not_found_count +
          (process_gene mixedLookup (.str "A")).2.1 +
          (runGenes mixedLookup [.str "C"]).not_found_count ∧
      (runGenes mixedLookup ([.str "B"] ++ .str "A" :: [.str "C"])).error_count =
        (runGenes mixedLookup [.str "B"]).error_count +
          (process_gene mixedLookup (.str "A")).2.2 +
          (runGenes mixedLookup [.str "C"]).error_count) :=
  ⟨rfl, C8_task_isolation mixedLookup [.str "B"] [.str "C"] (.str "A") rfl⟩

/-- Claim C9: `process_response` subscripts `data['data'][0]` without
checking that the list is non-empty — every body whose `data` field is the
empty list makes the extraction fault with an IndexError (the guarded index
comes back empty) instead of producing the "not found" sentinel; and
whenever the extraction completes at all on a truthy body — in particular
whenever it produces the sentinel — `data[0]` exists. -/
theorem C9_empty_data_faults :
    (∀ body g : JValue, body.subKey "data" = .ok (.arr []) →
      process_response body g = .error .indexError) ∧
    (∀ body g : JValue, ∀ recs : List PyDict, body.truthy = true →
      process_response body g = .ok recs →
      ∃ v, Except.bind (body.subKey "data") (fun d => d.subIdx 0) = .ok v) := by
  constructor
  · intro body g hdata
    have htruthy : body.truthy = true := truthy_of_subKey_ok hdata
    simp [process_response, htruthy, hdata, Bind.bind, Except.bind,
      JValue.subIdx]
  · intro body g recs htruthy hok
    simp only [process_response, htruthy, if_true, Bind.bind, Except.bind] at hok
    cases hdata : body.subKey "data" with
    | error e => rw [hdata] at hok; cases hok
    | ok d =>
      rw [hdata] at hok
      dsimp only at hok
      cases hidx : d.subIdx 0 with
      | error e => simp [hidx] at hok
      | ok v =>
        exact ⟨v, by simp [Bind.bind, Except.bind, hdata, hidx]⟩

/-- Claim C9, witness: the body whose `data` list is empty faults with an
IndexError, and a truthy well-formed body that produces the sentinel has a
first `data` entry. -/
theorem C9_empty_data_faults_witness :
    process_response (.obj [("data", .arr [])]) (.str "G")
        = .error .indexError ∧
    ∃ v, Except.bind ((homologyResponse [] []).subKey "data")
        (fun d => d.subIdx 0) = .ok v :=
  ⟨C9_empty_data_faults.1 (.obj [("data", .arr [])]) (.str "G") rfl,
   C9_empty_data_faults.2 (homologyResponse [] []) (.str "G")
     [notFoundRecord (.str "G")] rfl rfl⟩

/-- Claim C10: whenever `validate_input_file` accepts the input, the
designated "Pig Gene" column is among the DictReader fieldnames of the same
input, so the missing-column branch of `process_csv` — whose body would
fault on the unimported name `sys` — is never taken: the run proceeds to
the drain loop for every resolver. -/
theorem C10_validated_column (rows : List (List String))
    (hok : validate_input_file rows = .ok ()) :
    ∃ headers dataRows, rows = headers :: dataRows ∧
      headers.contains "Pig Gene" = true ∧
      ∀ api : LookupFn, process_csv api rows =
        .ok (runGenes api (extract_pig_genes headers dataRows)) := by
  match rows with
  | [] => simp [validate_input_file] at hok
  | headers :: t =>
    by_cases he : headers.isEmpty
    · simp [validate_input_file, he] at hok
    · by_cases hc : headers.contains "Pig Gene"
      · refine ⟨headers, t, rfl, hc, fun api => ?_⟩
        have hc2 : ("Pig Gene" ∈ headers) := by simpa using hc
        simp [process_csv, validate_input_file, he, hc, hc2, Bind.bind,
          Except.bind]
      · simp [validate_input_file, he, hc] at hok
        exact absurd hok (by simpa using hc)

/-- Claim C10, witness: a validated two-row input runs the drain loop for
an arbitrary concrete resolver. -/
theorem C10_validated_column_witness :
    validate_input_file [["Pig Gene"], ["Pdx1"]] = .ok () ∧
    ∃ headers dataRows,
      ([["Pig Gene"], ["Pdx1"]] : List (List String)) = headers :: dataRows ∧
      headers.contains "Pig Gene" = true ∧
      ∀ api : LookupFn, process_csv api [["Pig Gene"], ["Pdx1"]] =
        .ok (runGenes api (extract_pig_genes headers dataRows)) :=
  ⟨rfl, C10_validated_column [["Pig Gene"], ["Pdx1"]] rfl⟩

/-- Claim C1, evaluation at the failing input: the input table has header
"Pig Gene" and the single gene "Pdx1"; the resolver (the embedded
`get_human_ortholog` against a response with one human homology entry)
reports exactly one record for it, so the claim requires one data row —
but the batch writes zero rows and leaves the tally untouched, because
`process_gene` reads `ortholog['pig_gene']` while the resolver's records
carry the key `rat_gene`, so every task raises a KeyError that the
coordinating loop swallows. -/
theorem C1_rows_dropped :
    process_csv demoResolver [["Pig Gene"], ["Pdx1"]] = .ok ⟨[], 0, 0⟩ ∧
    demoResolver (.str "Pdx1")
      = .ok ([expectedRecord (.str "Pdx1") demoHomology], false) ∧
    [expectedRecord (.str "Pdx1") demoHomology].length = 1 :=
  ⟨rfl, rfl, rfl⟩
